import Mathlib

/-
Verification of the `imagegetter` package of diffoci.

The package orchestrates image retrieval: it classifies a raw reference
(`docker://...`, `podman://...`, or a plain registry name), dispatches to a
daemon export pipeline or a registry pull, applies the tri-state pull policy
(`always` / `missing` / `never`), and verifies platform completeness.

The external collaborators (image store, content store, transfer engine,
credential helper, the containerd reference parser and platform matcher) are
modelled as an explicit environment of scripted responses; every observable
side effect (subprocess invocation, transfer, store lookup, availability
check) is recorded in an event trace, so that the theorems below can state
exact counts and orderings of effects for each control path of
`ImageGetter.Get`.
-/

set_option autoImplicit false

namespace Imagegetter

/-- An OS/architecture/variant tuple (ocispec.Platform). -/
structure Platform where
  os : String
  arch : String
  variant : String
deriving DecidableEq

/-- The target descriptor of an image record.  `present` lists the platforms
whose blobs are materialized in the content store for this target; the check
`images.Check` consults the content store, which for a fixed target is
abstracted by this field. -/
structure Descriptor where
  present : List Platform
deriving DecidableEq

/-- An image record held by the image store (images.Image): its name and its
target descriptor. -/
structure Image where
  name : String
  target : Descriptor
deriving DecidableEq

/-- Errors returned by the image store `Get`; `errors.Is(err, errdefs.ErrNotFound)`
holds exactly for `notFound`. -/
inductive StoreErr where
  | notFound
  | otherErr (msg : String)
deriving DecidableEq

/-- Errors produced inside `Load`: the decompression step or the transfer step. -/
inductive LoadErr where
  | decompressFailed (msg : String)
  | transferFailed (msg : String)
deriving DecidableEq

/-- The error results of `ImageGetter.Get` and its helpers, one constructor per
`return nil, err` site, carrying the context the Go code wraps into the error. -/
inductive GetErr where
  | parseFailed (ref : String) (msg : String)
  | unknownPullMode (mode : String)
  | pullFailed (name : String) (msg : String)
  | stillNotFoundAfterPull (name : String) (e : StoreErr)
  | getImageFailed (name : String) (e : StoreErr)
  | checkFailed (msg : String)
  | unavailablePlatforms (name : String)
  | stdoutPipeFailed (msg : String)
  | startFailed (args : List String) (msg : String)
  | loadArchiveFailed (args : List String) (e : LoadErr)
  | closeFailed (msg : String)
  | imageNotAccessibleAfterLoad (args : List String) (e : StoreErr)
deriving DecidableEq

/-- Observable side effects of one `Get` call, in order of occurrence. -/
inductive Event where
  | subprocess (args : List String)
  | transferImport (ref : String) (plats : List Platform)
  | transferPull (ref : String) (plats : List Platform)
  | lookup (name : String)
  | availCheck (plats : List Platform)
deriving DecidableEq

/-- `listIsPre p l` holds when `p` is an initial segment of `l`. -/
def listIsPre : List Char → List Char → Bool
  | [], _ => true
  | _ :: _, [] => false
  | a :: as, b :: bs => a == b && listIsPre as bs

/-- strings.HasPrefix. -/
def hasPre (s p : String) : Bool :=
  listIsPre p.data s.data

/-- strings.TrimPrefix. -/
def trimPre (s p : String) : String :=
  if hasPre s p then String.mk (s.data.drop p.data.length) else s

def dockerImagePre : String := "docker://"

def podmanImagePre : String := "podman://"

def PullAlways : String := "always"

def PullMissing : String := "missing"

def PullNever : String := "never"

/-- Modelled from the spec: the boolean computed by the external
platform-completeness check (`platforms.Any(plats...)` fed to `images.Check`),
which is containerd collaborator code outside this repository.  Per the spec, a
record whose present platform set is a superset of the requested set is
complete, a record missing any requested platform is incomplete, and an empty
requested set is interpreted as "match any platform", reporting any record it
can resolve as complete. -/
def imagesCheck (desc : Descriptor) (plats : List Platform) : Bool :=
  plats.all (fun q => desc.present.contains q)

instance {α β : Type} [DecidableEq α] [DecidableEq β] : DecidableEq (Except α β) :=
  fun x y =>
    match x, y with
    | Except.ok a, Except.ok b =>
        if h : a = b then Decidable.isTrue (by rw [h])
        else Decidable.isFalse (by intro hh; cases hh; exact h rfl)
    | Except.error a, Except.error b =>
        if h : a = b then Decidable.isTrue (by rw [h])
        else Decidable.isFalse (by intro hh; cases hh; exact h rfl)
    | Except.ok _, Except.error _ => Decidable.isFalse (by intro hh; cases hh)
    | Except.error _, Except.ok _ => Decidable.isFalse (by intro hh; cases hh)

/-- The environment of one `Get` call: the behavior of every external
collaborator. `parse` models `refdocker.ParseDockerRef` (returning the
normalized name). `pulls`, `lookups` and `checkErrs` are the successive
responses of the transfer engine (registry pull), the image store lookup, and
the external error result of `images.Check`; an exhausted script answers with
success (resp. not-found).  The daemon subprocess fields model the export
pipeline; `exitedAbnormally` records whether the subprocess exited with a
failure status (the Go code never calls `Wait`, so nothing reads it). -/
structure Env where
  parse : String → Except String String
  dockerEnvVar : String
  podmanEnvVar : String
  stdoutPipeErr : Option String
  startErr : Option String
  decompressErr : Option String
  transferErr : Option String
  closeErr : Option String
  exitedAbnormally : Bool
  pulls : List (Option String)
  lookups : List (Except StoreErr Image)
  checkErrs : List (Option String)

/-- The mutable call state: the unconsumed collaborator scripts and the trace
of side effects so far. -/
structure St where
  pulls : List (Option String)
  lookups : List (Except StoreErr Image)
  checkErrs : List (Option String)
  trace : List Event
deriving DecidableEq

def initSt (env : Env) : St :=
  { pulls := env.pulls, lookups := env.lookups, checkErrs := env.checkErrs, trace := [] }

/-- One call to `Pull` (registry transfer): consumes the next scripted pull
response and records the transfer. `none` means the pull succeeded. -/
def doPull (name : String) (plats : List Platform) (s : St) : Option String × St :=
  (s.pulls.headD none,
   { s with pulls := s.pulls.tail, trace := s.trace ++ [Event.transferPull name plats] })

/-- One call to `imageStore.Get`: consumes the next scripted lookup response
and records the lookup. -/
def doLookup (name : String) (s : St) : Except StoreErr Image × St :=
  (s.lookups.headD (Except.error StoreErr.notFound),
   { s with lookups := s.lookups.tail, trace := s.trace ++ [Event.lookup name] })

/-- One call to `images.Check`: either the scripted external error, or the
availability boolean of the modelled completeness check; records the check. -/
def doCheck (desc : Descriptor) (plats : List Platform) (s : St) :
    Except String Bool × St :=
  let r := match s.checkErrs.headD none with
    | some msg => Except.error msg
    | none => Except.ok (imagesCheck desc plats)
  (r, { s with checkErrs := s.checkErrs.tail, trace := s.trace ++ [Event.availCheck plats] })

/-- `Load`: decompress the archive stream, then transfer it into the store as
an archive-import source named `name`, filtered to `plats`. -/
def doLoad (env : Env) (name : String) (plats : List Platform) (s : St) :
    Option LoadErr × St :=
  match env.decompressErr with
  | some e => (some (LoadErr.decompressFailed e), s)
  | none =>
    let s1 := { s with trace := s.trace ++ [Event.transferImport name plats] }
    match env.transferErr with
    | some e => (some (LoadErr.transferFailed e), s1)
    | none => (none, s1)

/-- `ImageGetter.loadDocker`: run `<docker> save <name>`, load the produced
archive, look the image up by `name`, and check platform completeness. -/
def loadDocker (env : Env) (docker : String) (name : String) (plats : List Platform)
    (s : St) : Except GetErr Image × St :=
  let args := [docker, "save", name]
  match env.stdoutPipeErr with
  | some e => (Except.error (GetErr.stdoutPipeFailed e), s)
  | none =>
    let s1 := { s with trace := s.trace ++ [Event.subprocess args] }
    match env.startErr with
    | some e => (Except.error (GetErr.startFailed args e), s1)
    | none =>
      match doLoad env name plats s1 with
      | (some e, s2) => (Except.error (GetErr.loadArchiveFailed args e), s2)
      | (none, s2) =>
        match env.closeErr with
        | some e => (Except.error (GetErr.closeFailed e), s2)
        | none =>
          match doLookup name s2 with
          | (Except.error e, s3) =>
            (Except.error (GetErr.imageNotAccessibleAfterLoad args e), s3)
          | (Except.ok img, s3) =>
            match doCheck img.target plats s3 with
            | (Except.error msg, s4) => (Except.error (GetErr.checkFailed msg), s4)
            | (Except.ok available, s4) =>
              if available then (Except.ok img, s4)
              else (Except.error (GetErr.unavailablePlatforms name), s4)

/-- `ImageGetter.getDocker`: strip the `docker://` marker, parse the remainder,
resolve the docker binary (the `DOCKER` override or `"docker"`), and load. -/
def getDocker (env : Env) (rawRef : String) (plats : List Platform) (s : St) :
    Except GetErr Image × St :=
  let rawRefTrimmed := trimPre rawRef dockerImagePre
  match env.parse rawRefTrimmed with
  | Except.error e => (Except.error (GetErr.parseFailed rawRefTrimmed e), s)
  | Except.ok name =>
    let docker := if env.dockerEnvVar = "" then "docker" else env.dockerEnvVar
    loadDocker env docker name plats s

/-- `ImageGetter.getPodman`: the podman counterpart of `getDocker`. -/
def getPodman (env : Env) (rawRef : String) (plats : List Platform) (s : St) :
    Except GetErr Image × St :=
  let rawRefTrimmed := trimPre rawRef podmanImagePre
  match env.parse rawRefTrimmed with
  | Except.error e => (Except.error (GetErr.parseFailed rawRefTrimmed e), s)
  | Except.ok name =>
    let podman := if env.podmanEnvVar = "" then "podman" else env.podmanEnvVar
    loadDocker env podman name plats s

/-- The platform checking tail of the registry path of `Get`: run the
completeness check; on incompleteness fail under `never`, otherwise pull once
more with the full requested set and return the record unverified. -/
def afterLookup (name : String) (plats : List Platform) (pullMode : String)
    (img : Image) (s : St) : Except GetErr Image × St :=
  match doCheck img.target plats s with
  | (Except.error msg, s1) => (Except.error (GetErr.checkFailed msg), s1)
  | (Except.ok available, s1) =>
    if available then (Except.ok img, s1)
    else if pullMode = PullNever then
      (Except.error (GetErr.unavailablePlatforms name), s1)
    else
      match doPull name plats s1 with
      | (some e, s2) => (Except.error (GetErr.pullFailed name e), s2)
      | (none, s2) => (Except.ok img, s2)

/-- The lookup phase of the registry path of `Get`: look the record up; on a
not-found error under a pulling policy, pull once and re-look-up exactly once. -/
def lookupPhase (name : String) (plats : List Platform) (pullMode : String)
    (s : St) : Except GetErr Image × St :=
  match doLookup name s with
  | (Except.ok img, s1) => afterLookup name plats pullMode img s1
  | (Except.error e, s1) =>
    if e = StoreErr.notFound ∧ pullMode ≠ PullNever then
      match doPull name plats s1 with
      | (some pe, s2) => (Except.error (GetErr.pullFailed name pe), s2)
      | (none, s2) =>
        match doLookup name s2 with
        | (Except.ok img, s3) => afterLookup name plats pullMode img s3
        | (Except.error e2, s3) =>
          (Except.error (GetErr.stillNotFoundAfterPull name e2), s3)
    else
      (Except.error (GetErr.getImageFailed name e), s1)

/-- The registry path of `Get`, from the pull-mode switch on: `always`
pre-pulls unconditionally (a failure is fatal), `missing` and `never` do
nothing here, and any other mode is an immediate configuration error. -/
def getRegistry (name : String) (plats : List Platform) (pullMode : String)
    (s : St) : Except GetErr Image × St :=
  if pullMode = PullAlways then
    match doPull name plats s with
    | (some e, s1) => (Except.error (GetErr.pullFailed name e), s1)
    | (none, s1) => lookupPhase name plats pullMode s1
  else if pullMode = PullMissing ∨ pullMode = PullNever then
    lookupPhase name plats pullMode s
  else
    (Except.error (GetErr.unknownPullMode pullMode), s)

/-- `ImageGetter.Get`: daemon-marked references delegate to the daemon load
path (the pull mode is never consulted there); everything else is parsed and
handled by the registry path. -/
def Get (env : Env) (rawRef : String) (plats : List Platform) (pullMode : String) :
    Except GetErr Image × St :=
  if hasPre rawRef dockerImagePre then
    getDocker env rawRef plats (initSt env)
  else if hasPre rawRef podmanImagePre then
    getPodman env rawRef plats (initSt env)
  else
    match env.parse rawRef with
    | Except.error e => (Except.error (GetErr.parseFailed rawRef e), initSt env)
    | Except.ok name => getRegistry name plats pullMode (initSt env)

/-- Errors observable on a read of the daemon-export stream.  `wrapped` models
an error produced by `fmt.Errorf("...: %w", inner)`; `errors.Is` unwraps it. -/
inductive IOErr where
  | eof
  | errClosed
  | otherErr (msg : String)
  | wrapped (msg : String) (inner : IOErr)
deriving DecidableEq

/-- `errors.Is(e, os.ErrClosed)` on a non-nil error. -/
def ioErrIsClosed : IOErr → Bool
  | IOErr.errClosed => true
  | IOErr.wrapped _ inner => ioErrIsClosed inner
  | _ => false

/-- `errors.Is(err, os.ErrClosed)` (a nil error never matches). -/
def errorsIsClosed : Option IOErr → Bool
  | none => false
  | some e => ioErrIsClosed e

/-- The `(n, err)` pair returned by one `Read` call. -/
structure ReadResult where
  n : Nat
  err : Option IOErr
deriving DecidableEq

/-- `readerWithEOF.Read`: forward the underlying read, but translate an
already-closed-handle error into `io.EOF`. -/
def readerWithEOFRead (r : ReadResult) : ReadResult :=
  if errorsIsClosed r.err then { r with err := some IOErr.eof } else r

/-- Whether the decompression/import pipeline consuming the stream treats the
read outcome as a failure: `io.EOF` (and a nil error) signal normal
end-of-data, any other error is a failure. -/
def isStreamFailure : Option IOErr → Bool
  | none => false
  | some IOErr.eof => false
  | some _ => true

def isPullEvent : Event → Bool
  | Event.transferPull _ _ => true
  | _ => false

def isLookupEvent : Event → Bool
  | Event.lookup _ => true
  | _ => false

def isCheckEvent : Event → Bool
  | Event.availCheck _ => true
  | _ => false

def isSubprocessEvent : Event → Bool
  | Event.subprocess _ => true
  | _ => false

def isImportEvent : Event → Bool
  | Event.transferImport _ _ => true
  | _ => false

def countPulls (t : List Event) : Nat := (t.filter isPullEvent).length

def countLookups (t : List Event) : Nat := (t.filter isLookupEvent).length

def countChecks (t : List Event) : Nat := (t.filter isCheckEvent).length

def countSubprocesses (t : List Event) : Nat := (t.filter isSubprocessEvent).length

def countImports (t : List Event) : Nat := (t.filter isImportEvent).length

/-- A default environment in which every collaborator succeeds: the parser
accepts the name unchanged, the daemon pipeline works, pulls succeed, and the
store answers lookups from `lookups`. -/
def baseEnv : Env :=
  { parse := fun s => Except.ok s
    dockerEnvVar := ""
    podmanEnvVar := ""
    stdoutPipeErr := none
    startErr := none
    decompressErr := none
    transferErr := none
    closeErr := none
    exitedAbnormally := false
    pulls := []
    lookups := []
    checkErrs := [] }

/-- A sample platform. -/
def platAmd : Platform := { os := "linux", arch := "amd64", variant := "" }

/-- A second sample platform. -/
def platArm : Platform := { os := "linux", arch := "arm64", variant := "v8" }

/-- A sample image record as loaded from a docker daemon. -/
def imgMyimage : Image := { name := "myimage:latest", target := { present := [platAmd] } }

/-- Claim C1 (counterexample): calling `Get` with the daemon-marked reference
"docker://myimage:latest" and the unrecognized pull-policy value "sometimes"
does not fail with the unknown-pull-mode configuration error: the daemon path
never consults the pull policy, so the call runs the daemon-export subprocess
(one subprocess invocation in the trace) and returns the loaded record. -/
theorem get_daemon_ref_skips_pull_mode_check :
    (Get { baseEnv with lookups := [Except.ok imgMyimage] }
        "docker://myimage:latest" [] "sometimes").fst = Except.ok imgMyimage
    ∧ countSubprocesses ((Get { baseEnv with lookups := [Except.ok imgMyimage] }
        "docker://myimage:latest" [] "sometimes").snd.trace) = 1 := by
  decide

/-- Claim C1 (amended): for every registry-kind reference (no daemon marker)
that parses successfully, `Get` with a pull-policy value outside
{"always", "missing", "never"} fails with the unknown-pull-mode configuration
error and performs no I/O at all: the event trace is empty (no subprocess, no
transfer, no store lookup).  Daemon-marked references bypass the pull-policy
check entirely. -/
theorem get_unknown_pull_mode_fails_before_io (env : Env) (rawRef name mode : String)
    (plats : List Platform)
    (hd : hasPre rawRef dockerImagePre = false)
    (hp : hasPre rawRef podmanImagePre = false)
    (hparse : env.parse rawRef = Except.ok name)
    (h1 : mode ≠ PullAlways) (h2 : mode ≠ PullMissing) (h3 : mode ≠ PullNever) :
    (Get env rawRef plats mode).fst = Except.error (GetErr.unknownPullMode mode)
    ∧ (Get env rawRef plats mode).snd.trace = [] := by
  simp [Get, hd, hp, hparse, getRegistry, initSt, h1, h2, h3]

/-- Witness for the amended claim C1 at a concrete reference and pull-policy
value. -/
theorem get_unknown_pull_mode_fails_before_io_witness :
    (Get baseEnv "example.com/app:v1" [] "sometimes").fst
        = Except.error (GetErr.unknownPullMode "sometimes")
    ∧ (Get baseEnv "example.com/app:v1" [] "sometimes").snd.trace = [] :=
  get_unknown_pull_mode_fails_before_io baseEnv "example.com/app:v1" "example.com/app:v1"
    "sometimes" [] (by decide) (by decide) rfl (by decide) (by decide) (by decide)

/-- Claim C2: for a registry-kind reference whose record is absent (the first
store lookup reports not-found), `Get` under the "missing" policy performs
exactly one pull followed by exactly one re-lookup; when the record is still
absent after the pull, it fails with the distinct still-not-found-after-pull
error, and the trace shows exactly one pull (never a second one). -/
theorem get_missing_absent_one_pull_one_relookup (env : Env) (rawRef name : String)
    (plats : List Platform) (e2 : StoreErr)
    (hd : hasPre rawRef dockerImagePre = false)
    (hp : hasPre rawRef podmanImagePre = false)
    (hparse : env.parse rawRef = Except.ok name)
    (hlk : env.lookups = [Except.error StoreErr.notFound, Except.error e2])
    (hpu : env.pulls = [none]) :
    (Get env rawRef plats PullMissing).fst
        = Except.error (GetErr.stillNotFoundAfterPull name e2)
    ∧ (Get env rawRef plats PullMissing).snd.trace
        = [Event.lookup name, Event.transferPull name plats, Event.lookup name]
    ∧ countPulls ((Get env rawRef plats PullMissing).snd.trace) = 1
    ∧ countLookups ((Get env rawRef plats PullMissing).snd.trace) = 2 := by
  simp [Get, hd, hp, hparse, getRegistry, lookupPhase, afterLookup, doLookup, doPull,
    doCheck, initSt, hlk, hpu, PullMissing, PullAlways, PullNever,
    countPulls, countLookups, isPullEvent, isLookupEvent]

/-- An environment whose store stays empty across both lookups and whose single
scripted pull succeeds. -/
def envStillAbsent : Env :=
  { baseEnv with
      lookups := [Except.error StoreErr.notFound, Except.error StoreErr.notFound]
      pulls := [none] }

/-- Witness for claim C2 at a concrete reference and environment. -/
theorem get_missing_absent_one_pull_one_relookup_witness :
    (Get envStillAbsent "example.com/app:v1" [] PullMissing).fst
        = Except.error (GetErr.stillNotFoundAfterPull "example.com/app:v1" StoreErr.notFound)
    ∧ (Get envStillAbsent "example.com/app:v1" [] PullMissing).snd.trace
        = [Event.lookup "example.com/app:v1", Event.transferPull "example.com/app:v1" [],
           Event.lookup "example.com/app:v1"]
    ∧ countPulls ((Get envStillAbsent "example.com/app:v1" [] PullMissing).snd.trace) = 1
    ∧ countLookups ((Get envStillAbsent "example.com/app:v1" [] PullMissing).snd.trace) = 2 :=
  get_missing_absent_one_pull_one_relookup envStillAbsent "example.com/app:v1"
    "example.com/app:v1" [] StoreErr.notFound (by decide) (by decide) rfl rfl rfl

/-- Claim C3: for a registry-kind reference under the "never" policy, `Get`
performs zero pulls: on an absent record it fails with the wrapped not-found
error after a single lookup, and on a record incomplete for the requested
platforms it fails with the unavailable-platforms error after the lookup and
the completeness check; in both cases the trace holds no pull, no import
transfer and no subprocess event. -/
theorem get_never_zero_pulls (env : Env) (rawRef name : String) (plats : List Platform)
    (hd : hasPre rawRef dockerImagePre = false)
    (hp : hasPre rawRef podmanImagePre = false)
    (hparse : env.parse rawRef = Except.ok name) :
    (env.lookups = [Except.error StoreErr.notFound] →
        (Get env rawRef plats PullNever).fst
            = Except.error (GetErr.getImageFailed name StoreErr.notFound)
        ∧ (Get env rawRef plats PullNever).snd.trace = [Event.lookup name]
        ∧ countPulls ((Get env rawRef plats PullNever).snd.trace) = 0
        ∧ countImports ((Get env rawRef plats PullNever).snd.trace) = 0
        ∧ countSubprocesses ((Get env rawRef plats PullNever).snd.trace) = 0)
    ∧ (∀ img : Image, env.lookups = [Except.ok img] → env.checkErrs = [] →
        imagesCheck img.target plats = false →
        (Get env rawRef plats PullNever).fst
            = Except.error (GetErr.unavailablePlatforms name)
        ∧ (Get env rawRef plats PullNever).snd.trace
            = [Event.lookup name, Event.availCheck plats]
        ∧ countPulls ((Get env rawRef plats PullNever).snd.trace) = 0
        ∧ countImports ((Get env rawRef plats PullNever).snd.trace) = 0
        ∧ countSubprocesses ((Get env rawRef plats PullNever).snd.trace) = 0) := by
  constructor
  · intro hlk
    simp [Get, hd, hp, hparse, getRegistry, lookupPhase, afterLookup, doLookup, doPull,
      doCheck, initSt, hlk, PullMissing, PullAlways, PullNever,
      countPulls, countImports, countSubprocesses, isPullEvent, isImportEvent,
      isSubprocessEvent, isLookupEvent]
  · intro img hlk hce hic
    simp [Get, hd, hp, hparse, getRegistry, lookupPhase, afterLookup, doLookup, doPull,
      doCheck, initSt, hlk, hce, hic, PullMissing, PullAlways, PullNever,
      countPulls, countImports, countSubprocesses, isPullEvent, isImportEvent,
      isSubprocessEvent, isCheckEvent]

/-- An environment whose store reports not-found on the only lookup. -/
def envAbsentOnce : Env := { baseEnv with lookups := [Except.error StoreErr.notFound] }

/-- Witness for claim C3 (absent-record branch) at a concrete reference. -/
theorem get_never_zero_pulls_witness :
    (Get envAbsentOnce "example.com/app:v1" [] PullNever).fst
        = Except.error (GetErr.getImageFailed "example.com/app:v1" StoreErr.notFound)
    ∧ (Get envAbsentOnce "example.com/app:v1" [] PullNever).snd.trace
        = [Event.lookup "example.com/app:v1"]
    ∧ countPulls ((Get envAbsentOnce "example.com/app:v1" [] PullNever).snd.trace) = 0
    ∧ countImports ((Get envAbsentOnce "example.com/app:v1" [] PullNever).snd.trace) = 0
    ∧ countSubprocesses ((Get envAbsentOnce "example.com/app:v1" [] PullNever).snd.trace) = 0 :=
  (get_never_zero_pulls envAbsentOnce "example.com/app:v1" "example.com/app:v1" []
    (by decide) (by decide) rfl).1 rfl

/-- Claim C4: for a registry-kind reference resolved to a record that is
incomplete for the requested platform set, `Get` under a pulling policy
("missing" or "always") performs exactly one corrective pull carrying the full
requested platform set and returns the record without a second completeness
check: the trace holds exactly one availability-check event and ends with the
corrective pull. -/
theorem get_corrective_pull_returns_unverified (env : Env) (rawRef name mode : String)
    (plats : List Platform) (img : Image)
    (hd : hasPre rawRef dockerImagePre = false)
    (hp : hasPre rawRef podmanImagePre = false)
    (hparse : env.parse rawRef = Except.ok name)
    (hm : mode = PullMissing ∨ mode = PullAlways)
    (hlk : env.lookups = [Except.ok img])
    (hpu : env.pulls = [none, none])
    (hce : env.checkErrs = [])
    (hic : imagesCheck img.target plats = false) :
    (Get env rawRef plats mode).fst = Except.ok img
    ∧ countChecks ((Get env rawRef plats mode).snd.trace) = 1
    ∧ (mode = PullMissing →
        (Get env rawRef plats mode).snd.trace
          = [Event.lookup name, Event.availCheck plats, Event.transferPull name plats])
    ∧ (mode = PullAlways →
        (Get env rawRef plats mode).snd.trace
          = [Event.transferPull name plats, Event.lookup name, Event.availCheck plats,
             Event.transferPull name plats]) := by
  rcases hm with hm | hm <;> subst hm <;>
    simp [Get, hd, hp, hparse, getRegistry, lookupPhase, afterLookup, doLookup, doPull,
      doCheck, initSt, hlk, hpu, hce, hic, PullMissing, PullAlways, PullNever,
      countChecks, isCheckEvent]

/-- A record present in the store but with no platform blobs materialized. -/
def imgNoBlobs : Image := { name := "example.com/app:v1", target := { present := [] } }

/-- An environment holding an incomplete record; pulls succeed. -/
def envIncomplete : Env :=
  { baseEnv with lookups := [Except.ok imgNoBlobs], pulls := [none, none] }

/-- Witness for claim C4 under the "missing" policy at a concrete incomplete
record. -/
theorem get_corrective_pull_returns_unverified_witness :
    (Get envIncomplete "example.com/app:v1" [platAmd] PullMissing).fst
        = Except.ok imgNoBlobs
    ∧ countChecks ((Get envIncomplete "example.com/app:v1" [platAmd] PullMissing).snd.trace)
        = 1 :=
  ⟨(get_corrective_pull_returns_unverified envIncomplete "example.com/app:v1"
      "example.com/app:v1" PullMissing [platAmd] imgNoBlobs (by decide) (by decide) rfl
      (Or.inl rfl) rfl rfl rfl (by decide)).1,
   (get_corrective_pull_returns_unverified envIncomplete "example.com/app:v1"
      "example.com/app:v1" PullMissing [platAmd] imgNoBlobs (by decide) (by decide) rfl
      (Or.inl rfl) rfl rfl rfl (by decide)).2.1⟩

/-- Claim C5: for a registry-kind reference under the "always" policy, `Get`
performs exactly one pull before the first store lookup, even when the record
already exists; a failure of this unconditional pre-pull is fatal: `Get`
returns the wrapped pull error and the trace holds the pull but no lookup. -/
theorem get_always_prepull_before_lookup (env : Env) (rawRef name : String)
    (plats : List Platform)
    (hd : hasPre rawRef dockerImagePre = false)
    (hp : hasPre rawRef podmanImagePre = false)
    (hparse : env.parse rawRef = Except.ok name) :
    (∀ e : String, env.pulls = [some e] →
        (Get env rawRef plats PullAlways).fst = Except.error (GetErr.pullFailed name e)
        ∧ (Get env rawRef plats PullAlways).snd.trace = [Event.transferPull name plats]
        ∧ countLookups ((Get env rawRef plats PullAlways).snd.trace) = 0)
    ∧ (∀ img : Image, env.pulls = [none] → env.lookups = [Except.ok img] →
        env.checkErrs = [] → imagesCheck img.target plats = true →
        (Get env rawRef plats PullAlways).fst = Except.ok img
        ∧ (Get env rawRef plats PullAlways).snd.trace
            = [Event.transferPull name plats, Event.lookup name, Event.availCheck plats]
        ∧ countPulls ((Get env rawRef plats PullAlways).snd.trace) = 1) := by
  constructor
  · intro e hpu
    simp [Get, hd, hp, hparse, getRegistry, lookupPhase, afterLookup, doLookup, doPull,
      doCheck, initSt, hpu, PullMissing, PullAlways, PullNever,
      countLookups, isLookupEvent, isPullEvent]
  · intro img hpu hlk hce hic
    simp [Get, hd, hp, hparse, getRegistry, lookupPhase, afterLookup, doLookup, doPull,
      doCheck, initSt, hpu, hlk, hce, hic, PullMissing, PullAlways, PullNever,
      countPulls, isPullEvent, isLookupEvent, isCheckEvent]

/-- An environment whose single scripted pull fails. -/
def envPullFails : Env := { baseEnv with pulls := [some "connection refused"] }

/-- Witness for claim C5 (failing pre-pull branch) at a concrete reference. -/
theorem get_always_prepull_before_lookup_witness :
    (Get envPullFails "example.com/app:v1" [] PullAlways).fst
        = Except.error (GetErr.pullFailed "example.com/app:v1" "connection refused")
    ∧ (Get envPullFails "example.com/app:v1" [] PullAlways).snd.trace
        = [Event.transferPull "example.com/app:v1" []]
    ∧ countLookups ((Get envPullFails "example.com/app:v1" [] PullAlways).snd.trace) = 0 :=
  (get_always_prepull_before_lookup envPullFails "example.com/app:v1" "example.com/app:v1"
    [] (by decide) (by decide) rfl).1 "connection refused" rfl

/-- Claim C6: for the reference "docker://myimage:latest" under the "missing"
policy, with the daemon pipeline and store behaving, `Get` performs exactly one
daemon-export subprocess invocation with argument vector
["docker", "save", "myimage:latest"], one archive-import transfer, and one
store lookup by "myimage:latest", and returns the record carrying that name
(the abstract reference parser returns the name unchanged, standing for the
normalized form of "myimage:latest"). -/
theorem get_docker_end_to_end (env : Env) (plats : List Platform) (img : Image)
    (hparse : env.parse "myimage:latest" = Except.ok "myimage:latest")
    (hdv : env.dockerEnvVar = "")
    (hpipe : env.stdoutPipeErr = none) (hstart : env.startErr = none)
    (hdec : env.decompressErr = none) (htr : env.transferErr = none)
    (hcl : env.closeErr = none)
    (hlk : env.lookups = [Except.ok img])
    (hname : img.name = "myimage:latest")
    (hce : env.checkErrs = [])
    (hic : imagesCheck img.target plats = true) :
    (Get env "docker://myimage:latest" plats PullMissing).fst = Except.ok img
    ∧ img.name = "myimage:latest"
    ∧ (Get env "docker://myimage:latest" plats PullMissing).snd.trace
        = [Event.subprocess ["docker", "save", "myimage:latest"],
           Event.transferImport "myimage:latest" plats,
           Event.lookup "myimage:latest",
           Event.availCheck plats]
    ∧ countSubprocesses ((Get env "docker://myimage:latest" plats PullMissing).snd.trace) = 1
    ∧ countImports ((Get env "docker://myimage:latest" plats PullMissing).snd.trace) = 1
    ∧ countLookups ((Get env "docker://myimage:latest" plats PullMissing).snd.trace) = 1 := by
  have hD : hasPre "docker://myimage:latest" dockerImagePre = true := by decide
  have hT : trimPre "docker://myimage:latest" dockerImagePre = "myimage:latest" := by decide
  refine ⟨?_, hname, ?_, ?_, ?_, ?_⟩ <;>
    simp [Get, hD, hT, getDocker, loadDocker, doLoad, doLookup, doCheck, initSt, hparse,
      hdv, hpipe, hstart, hdec, htr, hcl, hlk, hce, hic,
      countSubprocesses, countImports, countLookups, isSubprocessEvent, isImportEvent,
      isLookupEvent, isCheckEvent]

/-- An environment holding the loaded docker record. -/
def envDockerLoaded : Env := { baseEnv with lookups := [Except.ok imgMyimage] }

/-- Witness for claim C6 at the concrete end-to-end scenario. -/
theorem get_docker_end_to_end_witness :
    (Get envDockerLoaded "docker://myimage:latest" [] PullMissing).fst
        = Except.ok imgMyimage
    ∧ (Get envDockerLoaded "docker://myimage:latest" [] PullMissing).snd.trace
        = [Event.subprocess ["docker", "save", "myimage:latest"],
           Event.transferImport "myimage:latest" [],
           Event.lookup "myimage:latest",
           Event.availCheck []] :=
  ⟨(get_docker_end_to_end envDockerLoaded [] imgMyimage rfl rfl rfl rfl rfl rfl rfl rfl
      rfl rfl (by decide)).1,
   (get_docker_end_to_end envDockerLoaded [] imgMyimage rfl rfl rfl rfl rfl rfl rfl rfl
      rfl rfl (by decide)).2.2.1⟩

/-- An environment in which the export stream loads cleanly although the
daemon subprocess exits abnormally. -/
def envAbnormalExit : Env :=
  { baseEnv with exitedAbnormally := true, lookups := [Except.ok imgMyimage] }

/-- Claim C7 (counterexample): the daemon-export subprocess exits abnormally
(`exitedAbnormally := true`), yet the daemon load succeeds and returns the
record: `loadDocker` never waits on the subprocess, so an abnormal exit is not
itself detected and does not make the load fail as long as the exported stream
imports cleanly. -/
theorem get_daemon_load_ignores_exit_status :
    (Get envAbnormalExit "docker://myimage:latest" [] PullMissing).fst
        = Except.ok imgMyimage := by
  decide

/-- Claim C7 (amended): if the daemon-export subprocess fails to start, the
daemon load fails with an error carrying the invoked command; a failure of the
decompression or import of the exported stream likewise fails the load with an
error carrying the invoked command; the subprocess exit status itself is never
consulted, so the outcome of `loadDocker` is unchanged under any value of it. -/
theorem daemon_load_failure_carries_command (env : Env) (docker name : String)
    (plats : List Platform) (s : St) :
    (∀ e : String, env.stdoutPipeErr = none → env.startErr = some e →
        (loadDocker env docker name plats s).fst
          = Except.error (GetErr.startFailed [docker, "save", name] e))
    ∧ (∀ e : String, env.stdoutPipeErr = none → env.startErr = none →
        env.decompressErr = some e →
        (loadDocker env docker name plats s).fst
          = Except.error (GetErr.loadArchiveFailed [docker, "save", name]
              (LoadErr.decompressFailed e)))
    ∧ (∀ e : String, env.stdoutPipeErr = none → env.startErr = none →
        env.decompressErr = none → env.transferErr = some e →
        (loadDocker env docker name plats s).fst
          = Except.error (GetErr.loadArchiveFailed [docker, "save", name]
              (LoadErr.transferFailed e)))
    ∧ (∀ b : Bool, loadDocker { env with exitedAbnormally := b } docker name plats s
          = loadDocker env docker name plats s) := by
  refine ⟨?_, ?_, ?_, ?_⟩
  · intro e hpipe hstart
    simp [loadDocker, doLoad, hpipe, hstart]
  · intro e hpipe hstart hdec
    simp [loadDocker, doLoad, hpipe, hstart, hdec]
  · intro e hpipe hstart hdec htr
    simp [loadDocker, doLoad, hpipe, hstart, hdec, htr]
  · intro b
    rfl

/-- An environment whose daemon subprocess fails to start. -/
def envStartFails : Env := { baseEnv with startErr := some "executable file not found" }

/-- Witness for the amended claim C7: a concrete start failure reported with
the invoked command. -/
theorem daemon_load_failure_carries_command_witness :
    (loadDocker envStartFails "docker" "myimage:latest" [] (initSt envStartFails)).fst
        = Except.error (GetErr.startFailed ["docker", "save", "myimage:latest"]
            "executable file not found") :=
  (daemon_load_failure_carries_command envStartFails "docker" "myimage:latest" []
    (initSt envStartFails)).1 "executable file not found" rfl rfl

/-- Claim C8: a read of the daemon-export stream that fails because the
underlying handle is already closed (an error `errors.Is`-matching
`os.ErrClosed`, possibly wrapped) is reported by `readerWithEOF.Read` as a
clean `io.EOF` with the byte count preserved, and the decompression/import
pipeline does not treat that outcome as a failure. -/
theorem reader_with_eof_translates_closed (r : ReadResult)
    (h : errorsIsClosed r.err = true) :
    readerWithEOFRead r = { n := r.n, err := some IOErr.eof }
    ∧ isStreamFailure (readerWithEOFRead r).err = false := by
  constructor
  · simp [readerWithEOFRead, h]
  · simp [readerWithEOFRead, h, isStreamFailure]

/-- Witness for claim C8 at a concrete wrapped already-closed read error. -/
theorem reader_with_eof_translates_closed_witness :
    readerWithEOFRead { n := 512, err := some (IOErr.wrapped "read |0" IOErr.errClosed) }
        = { n := 512, err := some IOErr.eof }
    ∧ isStreamFailure (readerWithEOFRead
        { n := 512, err := some (IOErr.wrapped "read |0" IOErr.errClosed) }).err = false :=
  reader_with_eof_translates_closed
    { n := 512, err := some (IOErr.wrapped "read |0" IOErr.errClosed) } (by decide)

/-- Claim C9: a retrieval call with an empty requested platform set treats the
empty set as "match any platform": for a record resolvable in the store the
completeness check reports complete, so `Get` (here under the "never" policy,
which could not pull to mend a gap) returns the record after one lookup and one
check. -/
theorem get_empty_platform_set_complete (env : Env) (rawRef name : String) (img : Image)
    (hd : hasPre rawRef dockerImagePre = false)
    (hp : hasPre rawRef podmanImagePre = false)
    (hparse : env.parse rawRef = Except.ok name)
    (hlk : env.lookups = [Except.ok img])
    (hce : env.checkErrs = []) :
    imagesCheck img.target [] = true
    ∧ (Get env rawRef [] PullNever).fst = Except.ok img
    ∧ (Get env rawRef [] PullNever).snd.trace
        = [Event.lookup name, Event.availCheck []] := by
  refine ⟨rfl, ?_, ?_⟩ <;>
    simp [Get, hd, hp, hparse, getRegistry, lookupPhase, afterLookup, doLookup, doPull,
      doCheck, initSt, hlk, hce, imagesCheck, PullMissing, PullAlways, PullNever]

/-- An environment holding a record with no materialized platform blobs. -/
def envNoBlobs : Env := { baseEnv with lookups := [Except.ok imgNoBlobs] }

/-- Witness for claim C9: even a record with an empty present set is reported
complete under an empty requested platform set. -/
theorem get_empty_platform_set_complete_witness :
    imagesCheck imgNoBlobs.target [] = true
    ∧ (Get envNoBlobs "example.com/app:v1" [] PullNever).fst = Except.ok imgNoBlobs :=
  ⟨(get_empty_platform_set_complete envNoBlobs "example.com/app:v1" "example.com/app:v1"
      imgNoBlobs (by decide) (by decide) rfl rfl rfl).1,
   (get_empty_platform_set_complete envNoBlobs "example.com/app:v1" "example.com/app:v1"
      imgNoBlobs (by decide) (by decide) rfl rfl rfl).2.1⟩

/-- Claim C10: for a registry-kind reference whose initial store lookup fails
with an error other than not-found, `Get` returns that error wrapped with the
image name and performs no pull-and-relookup under any policy: the trace holds
exactly one lookup, and the only pull ever present is the unconditional
pre-pull of the "always" policy. -/
theorem get_non_notfound_lookup_error_no_retry (env : Env) (rawRef name mode : String)
    (plats : List Platform) (e : StoreErr)
    (hd : hasPre rawRef dockerImagePre = false)
    (hp : hasPre rawRef podmanImagePre = false)
    (hparse : env.parse rawRef = Except.ok name)
    (hm : mode = PullAlways ∨ mode = PullMissing ∨ mode = PullNever)
    (hpu : env.pulls = [none])
    (hlk : env.lookups = [Except.error e])
    (he : e ≠ StoreErr.notFound) :
    (Get env rawRef plats mode).fst = Except.error (GetErr.getImageFailed name e)
    ∧ countLookups ((Get env rawRef plats mode).snd.trace) = 1
    ∧ countPulls ((Get env rawRef plats mode).snd.trace)
        = (if mode = PullAlways then 1 else 0) := by
  rcases hm with hm | hm | hm <;> subst hm <;>
    simp [Get, hd, hp, hparse, getRegistry, lookupPhase, afterLookup, doLookup, doPull,
      doCheck, initSt, hpu, hlk, he, PullMissing, PullAlways, PullNever,
      countLookups, countPulls, isLookupEvent, isPullEvent]

/-- An environment whose only lookup fails with a non-not-found store error. -/
def envLookupBroken : Env :=
  { baseEnv with pulls := [none], lookups := [Except.error (StoreErr.otherErr "io timeout")] }

/-- Witness for claim C10 under the "missing" policy at a concrete failing
store. -/
theorem get_non_notfound_lookup_error_no_retry_witness :
    (Get envLookupBroken "example.com/app:v1" [] PullMissing).fst
        = Except.error (GetErr.getImageFailed "example.com/app:v1"
            (StoreErr.otherErr "io timeout"))
    ∧ countLookups ((Get envLookupBroken "example.com/app:v1" [] PullMissing).snd.trace) = 1
    ∧ countPulls ((Get envLookupBroken "example.com/app:v1" [] PullMissing).snd.trace)
        = (if PullMissing = PullAlways then 1 else 0) :=
  get_non_notfound_lookup_error_no_retry envLookupBroken "example.com/app:v1"
    "example.com/app:v1" PullMissing [] (StoreErr.otherErr "io timeout") (by decide)
    (by decide) rfl (Or.inr (Or.inl rfl)) rfl rfl (by decide)

end Imagegetter
